import Mathlib

/-!
# Smart irrigation controller (`smartirrigation.c`)

A shallow embedding of the Arduino sketch: the global `moistureLevel`, the two
output pins and the sequence of observable events (serial prints, pin writes,
sensor reads, blocking delays) are an explicit `Machine` state that every
routine transforms.  The value returned by `analogRead` is supplied by the
environment, so `setup` and `loop` take the reading of their single sensor read
as an argument.
-/

namespace SmartIrrigation

/-! ## Constants of the sketch -/

/-- Pin of the pump transistor: `const int PUMP_PIN = 9`. -/
def PUMP_PIN : Nat := 9

/-- Analog input 0 of the board.  The number comes from the board header, which
is not part of the sketch (14 on the Uno); no result depends on its value. -/
def A0 : Nat := 14

/-- Sensor input: `const int MOISTURE_SENSOR_PIN = A0`. -/
def MOISTURE_SENSOR_PIN : Nat := A0

/-- Status LED: `const int STATUS_LED_PIN = 13`. -/
def STATUS_LED_PIN : Nat := 13

/-- Threshold `const int DRY_THRESHOLD = 700` (above this the soil is dry). -/
def DRY_THRESHOLD : Int := 700

/-- Threshold `const int WET_THRESHOLD = 400` (below this the soil is wet). -/
def WET_THRESHOLD : Int := 400

/-- Pause `const int CYCLE_DELAY = 3000` between checks, in ms. -/
def CYCLE_DELAY : Nat := 3000

/-- Duration `const int WATERING_TIME = 2000` of one watering, in ms. -/
def WATERING_TIME : Nat := 2000

/-- Blink phase `const int BLINK_FAST = 200`, in ms. -/
def BLINK_FAST : Nat := 200

/-- Blink phase `const int BLINK_SLOW = 500`, in ms. -/
def BLINK_SLOW : Nat := 500

/-- Logic level `HIGH`. -/
def HIGH : Bool := true

/-- Logic level `LOW`. -/
def LOW : Bool := false

/-- The string made of `n` copies of the character `c`; the banner of `setup()`
is framed by two lines of 50 equals signs. -/
def ruleLine (n : Nat) (c : Char) : String :=
  String.mk (List.replicate n c)

/-- Pin modes accepted by `pinMode`. -/
inductive PinMode
  | INPUT
  | OUTPUT
  deriving DecidableEq, Repr

/-! ## Observable events and machine state -/

/-- One observable action of the sketch, in the order the board performs it. -/
inductive Event
  | pinMode (pin : Nat) (mode : PinMode)
  | serialBegin (baud : Nat)
  | analogRead (pin : Nat) (value : Int)
  | print (s : String)
  | println (s : String)
  | printlnInt (v : Int)
  | printlnEmpty
  | digitalWrite (pin : Nat) (level : Bool)
  | delay (ms : Nat)
  deriving DecidableEq, Repr

/-- State of the board: the global `moistureLevel`, the levels driven on the
pump and LED pins, and the events performed so far (oldest first). -/
structure Machine where
  moistureLevel : Int
  pump : Bool
  led : Bool
  log : List Event
  deriving DecidableEq, Repr

/-- State after reset: `int moistureLevel = 0`, both port bits cleared. -/
def powerOn : Machine :=
  { moistureLevel := 0, pump := false, led := false, log := [] }

/-- Append one event to the log. -/
def emit (e : Event) (m : Machine) : Machine :=
  { m with log := m.log ++ [e] }

/-- Call `pinMode(pin, mode)`: it configures the direction only. -/
def pinMode (pin : Nat) (mode : PinMode) (m : Machine) : Machine :=
  emit (Event.pinMode pin mode) m

/-- Call `Serial.begin(baud)`. -/
def Serial_begin (baud : Nat) (m : Machine) : Machine :=
  emit (Event.serialBegin baud) m

/-- Call `Serial.print(s)` with a string. -/
def Serial_print (s : String) (m : Machine) : Machine :=
  emit (Event.print s) m

/-- Call `Serial.println(s)` with a string. -/
def Serial_println (s : String) (m : Machine) : Machine :=
  emit (Event.println s) m

/-- Call `Serial.println(v)` with an `int`. -/
def Serial_printlnInt (v : Int) (m : Machine) : Machine :=
  emit (Event.printlnInt v) m

/-- Call `Serial.println()` without argument. -/
def Serial_printlnEmpty (m : Machine) : Machine :=
  emit Event.printlnEmpty m

/-- Call `digitalWrite(pin, level)`: drives the pin and records the write. -/
def digitalWrite (pin : Nat) (level : Bool) (m : Machine) : Machine :=
  let m1 : Machine :=
    if pin = PUMP_PIN then { m with pump := level }
    else if pin = STATUS_LED_PIN then { m with led := level }
    else m
  emit (Event.digitalWrite pin level) m1

/-- Call `delay(ms)`: blocks for `ms` milliseconds. -/
def delay (ms : Nat) (m : Machine) : Machine :=
  emit (Event.delay ms) m

/-- Call `analogRead(pin)`: the environment supplies `value`. -/
def analogRead (pin : Nat) (value : Int) (m : Machine) : Int × Machine :=
  (value, emit (Event.analogRead pin value) m)

/-- The C loop `for (int i = lo; i < hi; i++) body`, for a body that does not
assign `i`: the body runs for `i = lo, lo+1, ..., hi-1` in turn. -/
def forLoop (lo hi : Nat) (body : Nat → Machine → Machine) (m : Machine) : Machine :=
  (List.range' lo (hi - lo)).foldl (fun acc i => body i acc) m

/-! ## The routines of the sketch -/

/-- Routine `startWateringCycle()`. -/
def startWateringCycle (m : Machine) : Machine :=
  let m := Serial_println "💧 PUMP: ACTIVATED" m
  let m := digitalWrite PUMP_PIN HIGH m
  let m := digitalWrite STATUS_LED_PIN HIGH m
  let m := Serial_println "Watering for 2 seconds..." m
  let m := delay WATERING_TIME m
  let m := digitalWrite PUMP_PIN LOW m
  let m := digitalWrite STATUS_LED_PIN LOW m
  let m := Serial_println "💧 PUMP: DEACTIVATED" m
  let m := Serial_println "✅ Watering complete!" m
  m

/-- Routine `indicateGoodCondition()`. -/
def indicateGoodCondition (m : Machine) : Machine :=
  let m := Serial_println "💡 LED: Double blink (Soil wet - Happy!)" m
  forLoop 0 2 (fun _ m =>
    let m := digitalWrite STATUS_LED_PIN HIGH m
    let m := delay BLINK_SLOW m
    let m := digitalWrite STATUS_LED_PIN LOW m
    let m := delay BLINK_SLOW m
    m) m

/-- Routine `indicateMonitoring()`. -/
def indicateMonitoring (m : Machine) : Machine :=
  let m := Serial_println "💡 LED: Single blink (Monitoring moisture)" m
  let m := digitalWrite STATUS_LED_PIN HIGH m
  let m := delay BLINK_FAST m
  let m := digitalWrite STATUS_LED_PIN LOW m
  m

/-- Routine `setup()`; `reading` is what its `analogRead` returns. -/
def setup (reading : Int) (m : Machine) : Machine :=
  let m := pinMode PUMP_PIN PinMode.OUTPUT m
  let m := pinMode STATUS_LED_PIN PinMode.OUTPUT m
  let m := Serial_begin 9600 m
  let m := digitalWrite PUMP_PIN LOW m
  let m := digitalWrite STATUS_LED_PIN LOW m
  let m := Serial_println (ruleLine 50 '=') m
  let m := Serial_println "        SMART IRRIGATION SYSTEM - ACTIVE" m
  let m := Serial_println (ruleLine 50 '=') m
  let m := Serial_println "SENSOR LOGIC:" m
  let m := Serial_println "  • 200-400  = WET SOIL    = NO WATERING" m
  let m := Serial_println "  • 400-700  = MOIST SOIL  = MONITOR" m
  let m := Serial_println "  • 700-1023 = DRY SOIL    = WATER NOW" m
  let m := Serial_println "--------------------------------------------------" m
  let (v, m) := analogRead MOISTURE_SENSOR_PIN reading m
  let m := { m with moistureLevel := v }
  let m := Serial_print "Initial Sensor Reading: " m
  let m := Serial_printlnInt m.moistureLevel m
  let m :=
    if m.moistureLevel = 0 then
      Serial_println "⚠  Check sensor wiring: VCC→5V, GND→GND, SIG→A0" m
    else m
  let m := Serial_println "System ready! Starting monitoring..." m
  let m := Serial_printlnEmpty m
  let m := delay 2000 m
  m

/-- Routine `loop()`; `reading` is what its `analogRead` returns. -/
def loop (reading : Int) (m : Machine) : Machine :=
  let (v, m) := analogRead MOISTURE_SENSOR_PIN reading m
  let m := { m with moistureLevel := v }
  let m := Serial_println "--------------- Soil Check ---------------" m
  let m := Serial_print "Moisture Reading: " m
  let m := Serial_printlnInt m.moistureLevel m
  let m :=
    if m.moistureLevel > DRY_THRESHOLD then
      let m := Serial_println "🚨 STATUS: SOIL IS DRY" m
      let m := Serial_println "💧 ACTION: STARTING WATERING" m
      startWateringCycle m
    else if m.moistureLevel < WET_THRESHOLD then
      let m := Serial_println "✅ STATUS: SOIL IS WET" m
      let m := Serial_println "🌱 ACTION: No watering needed" m
      indicateGoodCondition m
    else
      let m := Serial_println "🔍 STATUS: SOIL IS MOIST" m
      let m := Serial_println "📊 ACTION: Continuing monitoring" m
      indicateMonitoring m
  let m := Serial_println "------------------------------------------" m
  let m := delay CYCLE_DELAY m
  m

/-- The Arduino runtime: `setup()` once, then `loop()` once per reading of
`readings` (the first `readings.length` iterations of the endless loop). -/
def run (startup : Int) (readings : List Int) (m : Machine) : Machine :=
  readings.foldl (fun acc r => loop r acc) (setup startup m)

/-! ## Observations on event sequences -/

/-- Events a routine appends when started in state `m`. -/
def emitted (p : Machine → Machine) (m : Machine) : List Event :=
  (p m).log.drop m.log.length

/-- Total blocking time of an event sequence, in ms. -/
def totalDelay : List Event → Nat
  | [] => 0
  | Event.delay ms :: rest => ms + totalDelay rest
  | _ :: rest => totalDelay rest

/-- Pin levels `(pump, led)` after one more event. -/
def pinStep (lv : Bool × Bool) (e : Event) : Bool × Bool :=
  match e with
  | Event.digitalWrite pin level =>
      if pin = PUMP_PIN then (level, lv.2)
      else if pin = STATUS_LED_PIN then (lv.1, level)
      else lv
  | _ => lv

/-- Pin levels `(pump, led)` after a sequence of events. -/
def pinsAfter (lv : Bool × Bool) (evs : List Event) : Bool × Bool :=
  evs.foldl pinStep lv

/-- Pin levels `(pump, led)` right after each event of the sequence. -/
def pinHistory (lv : Bool × Bool) : List Event → List (Bool × Bool)
  | [] => []
  | e :: rest => pinStep lv e :: pinHistory (pinStep lv e) rest

/-- Pin writes and delays of a sequence (serial output and reads dropped). -/
def outputEvents (evs : List Event) : List Event :=
  evs.filter fun e =>
    match e with
    | Event.digitalWrite _ _ => true
    | Event.delay _ => true
    | _ => false

/-- Writes to the pump pin in a sequence. -/
def pumpWrites (evs : List Event) : List Event :=
  evs.filter fun e =>
    match e with
    | Event.digitalWrite pin _ => decide (pin = PUMP_PIN)
    | _ => false

/-- Sensor reads in a sequence. -/
def sensorReads (evs : List Event) : List Event :=
  evs.filter fun e =>
    match e with
    | Event.analogRead _ _ => true
    | _ => false

/-! ## The three branches of the decision in `loop()` -/

/-- Statements of `loop()` before the decision: the sensor read, the banner
and the reading. -/
def loopPrologue (reading : Int) (m : Machine) : Machine :=
  let (v, m) := analogRead MOISTURE_SENSOR_PIN reading m
  let m := { m with moistureLevel := v }
  let m := Serial_println "--------------- Soil Check ---------------" m
  let m := Serial_print "Moisture Reading: " m
  let m := Serial_printlnInt m.moistureLevel m
  m

/-- Statements of `loop()` after the decision: closing line and cycle sleep. -/
def loopEpilogue (m : Machine) : Machine :=
  let m := Serial_println "------------------------------------------" m
  let m := delay CYCLE_DELAY m
  m

/-- Body of the `if (moistureLevel > DRY_THRESHOLD)` branch. -/
def dryBranch (m : Machine) : Machine :=
  let m := Serial_println "🚨 STATUS: SOIL IS DRY" m
  let m := Serial_println "💧 ACTION: STARTING WATERING" m
  startWateringCycle m

/-- Body of the `else if (moistureLevel < WET_THRESHOLD)` branch. -/
def wetBranch (m : Machine) : Machine :=
  let m := Serial_println "✅ STATUS: SOIL IS WET" m
  let m := Serial_println "🌱 ACTION: No watering needed" m
  indicateGoodCondition m

/-- Body of the final `else` branch. -/
def moistBranch (m : Machine) : Machine :=
  let m := Serial_println "🔍 STATUS: SOIL IS MOIST" m
  let m := Serial_println "📊 ACTION: Continuing monitoring" m
  indicateMonitoring m

/-- The iteration reading `r` from state `m` runs the DRY branch, that is, it
calls `startWateringCycle`. -/
def SelectsDry (r : Int) (m : Machine) : Prop :=
  loop r m = loopEpilogue (dryBranch (loopPrologue r m))

/-- The iteration reading `r` from state `m` runs the WET branch, that is, it
calls `indicateGoodCondition`. -/
def SelectsWet (r : Int) (m : Machine) : Prop :=
  loop r m = loopEpilogue (wetBranch (loopPrologue r m))

/-- The iteration reading `r` from state `m` runs the MOIST branch, that is, it
calls `indicateMonitoring`. -/
def SelectsMoist (r : Int) (m : Machine) : Prop :=
  loop r m = loopEpilogue (moistBranch (loopPrologue r m))

/-! ## Event sequences of the routines, written out -/

/-- Events of `startWateringCycle()`. -/
def wateringEvents : List Event :=
  [Event.println "💧 PUMP: ACTIVATED",
   Event.digitalWrite PUMP_PIN HIGH,
   Event.digitalWrite STATUS_LED_PIN HIGH,
   Event.println "Watering for 2 seconds...",
   Event.delay WATERING_TIME,
   Event.digitalWrite PUMP_PIN LOW,
   Event.digitalWrite STATUS_LED_PIN LOW,
   Event.println "💧 PUMP: DEACTIVATED",
   Event.println "✅ Watering complete!"]

/-- Events of `indicateGoodCondition()`. -/
def doubleBlinkEvents : List Event :=
  [Event.println "💡 LED: Double blink (Soil wet - Happy!)",
   Event.digitalWrite STATUS_LED_PIN HIGH,
   Event.delay BLINK_SLOW,
   Event.digitalWrite STATUS_LED_PIN LOW,
   Event.delay BLINK_SLOW,
   Event.digitalWrite STATUS_LED_PIN HIGH,
   Event.delay BLINK_SLOW,
   Event.digitalWrite STATUS_LED_PIN LOW,
   Event.delay BLINK_SLOW]

/-- Events of `indicateMonitoring()`. -/
def singleBlinkEvents : List Event :=
  [Event.println "💡 LED: Single blink (Monitoring moisture)",
   Event.digitalWrite STATUS_LED_PIN HIGH,
   Event.delay BLINK_FAST,
   Event.digitalWrite STATUS_LED_PIN LOW]

/-- Events of one `loop()` iteration that reads `r`. -/
def loopEvents (r : Int) : List Event :=
  [Event.analogRead MOISTURE_SENSOR_PIN r,
   Event.println "--------------- Soil Check ---------------",
   Event.print "Moisture Reading: ",
   Event.printlnInt r] ++
  (if r > DRY_THRESHOLD then
      [Event.println "🚨 STATUS: SOIL IS DRY",
       Event.println "💧 ACTION: STARTING WATERING"] ++ wateringEvents
    else if r < WET_THRESHOLD then
      [Event.println "✅ STATUS: SOIL IS WET",
       Event.println "🌱 ACTION: No watering needed"] ++ doubleBlinkEvents
    else
      [Event.println "🔍 STATUS: SOIL IS MOIST",
       Event.println "📊 ACTION: Continuing monitoring"] ++ singleBlinkEvents) ++
  [Event.println "------------------------------------------",
   Event.delay CYCLE_DELAY]

/-- Events of `setup()` when its sensor read returns `r`. -/
def setupEvents (r : Int) : List Event :=
  [Event.pinMode PUMP_PIN PinMode.OUTPUT,
   Event.pinMode STATUS_LED_PIN PinMode.OUTPUT,
   Event.serialBegin 9600,
   Event.digitalWrite PUMP_PIN LOW,
   Event.digitalWrite STATUS_LED_PIN LOW,
   Event.println (ruleLine 50 '='),
   Event.println "        SMART IRRIGATION SYSTEM - ACTIVE",
   Event.println (ruleLine 50 '='),
   Event.println "SENSOR LOGIC:",
   Event.println "  • 200-400  = WET SOIL    = NO WATERING",
   Event.println "  • 400-700  = MOIST SOIL  = MONITOR",
   Event.println "  • 700-1023 = DRY SOIL    = WATER NOW",
   Event.println "--------------------------------------------------",
   Event.analogRead MOISTURE_SENSOR_PIN r,
   Event.print "Initial Sensor Reading: ",
   Event.printlnInt r] ++
  (if r = 0 then
      [Event.println "⚠  Check sensor wiring: VCC→5V, GND→GND, SIG→A0"]
    else []) ++
  [Event.println "System ready! Starting monitoring...",
   Event.printlnEmpty,
   Event.delay 2000]

/-- Events of consecutive `loop()` iterations, one per reading. -/
def loopsEvents : List Int → List Event
  | [] => []
  | r :: rs => loopEvents r ++ loopsEvents rs

/-- The point between the events `pre` already performed and the events `post`
still to come lies in a watering hold: the last pump write performed is the
`digitalWrite(PUMP_PIN, HIGH)` of `startWateringCycle`, at most the LED write,
the progress line and the `delay(WATERING_TIME)` have followed it, and what
comes next is the rest of these and then `digitalWrite(PUMP_PIN, LOW)`. -/
def InWateringHold (pre post : List Event) : Prop :=
  ∃ a b c d, pre = a ++ b ∧ b ≠ [] ∧
    b ++ c =
      [Event.digitalWrite PUMP_PIN HIGH, Event.digitalWrite STATUS_LED_PIN HIGH,
       Event.println "Watering for 2 seconds...", Event.delay WATERING_TIME] ∧
    post = c ++ Event.digitalWrite PUMP_PIN LOW :: d

/-- Durations of the delays in a sequence, in order. -/
def delays : List Event → List Nat
  | [] => []
  | Event.delay ms :: rest => ms :: delays rest
  | _ :: rest => delays rest

/-- The advisory line `setup()` prints for a zero reading. -/
def wiringHint : Event :=
  Event.println "⚠  Check sensor wiring: VCC→5V, GND→GND, SIG→A0"

/-- A sequence with the wiring hint line removed. -/
def withoutHint (evs : List Event) : List Event :=
  evs.filter fun e => decide (e ≠ wiringHint)

/-- An event with the sensor value it reads or prints replaced by `v`. -/
def withReading (v : Int) : Event → Event
  | Event.analogRead pin _ => Event.analogRead pin v
  | Event.printlnInt _ => Event.printlnInt v
  | e => e

/-- The status classification lines and action lines that `loop()` prints. -/
def isReportLine (e : Event) : Bool :=
  decide (e ∈
    [Event.println "🚨 STATUS: SOIL IS DRY",
     Event.println "💧 ACTION: STARTING WATERING",
     Event.println "✅ STATUS: SOIL IS WET",
     Event.println "🌱 ACTION: No watering needed",
     Event.println "🔍 STATUS: SOIL IS MOIST",
     Event.println "📊 ACTION: Continuing monitoring"])

/-- The order "dispatch, then report, then sleep": after a status or action
line nothing is left of the pin writes and delays but the cycle sleep. -/
def ReportFollowsDispatch (evs : List Event) : Prop :=
  ∀ pre e post, evs = pre ++ e :: post → isReportLine e = true →
    outputEvents post = [Event.delay CYCLE_DELAY]

/-- The order "report, then dispatch": no pin write and no delay comes before a
status or action line. -/
def ReportPrecedesDispatch (evs : List Event) : Prop :=
  ∀ pre e post, evs = pre ++ e :: post → isReportLine e = true →
    outputEvents pre = []

/-! ## Basic lemmas: what each routine does to the machine -/

theorem ruleLine_ne_hint :
    ruleLine 50 '=' ≠ "⚠  Check sensor wiring: VCC→5V, GND→GND, SIG→A0" := by
  decide

theorem hint_ne_ruleLine :
    "⚠  Check sensor wiring: VCC→5V, GND→GND, SIG→A0" ≠ ruleLine 50 '=' := by
  decide

theorem ready_ne_ruleLine :
    "System ready! Starting monitoring..." ≠ ruleLine 50 '=' := by
  decide

theorem digitalWrite_pump (v : Bool) (m : Machine) :
    digitalWrite PUMP_PIN v m =
      { m with pump := v, log := m.log ++ [Event.digitalWrite PUMP_PIN v] } := by
  simp [digitalWrite, emit]

theorem digitalWrite_led (v : Bool) (m : Machine) :
    digitalWrite STATUS_LED_PIN v m =
      { m with led := v, log := m.log ++ [Event.digitalWrite STATUS_LED_PIN v] } := by
  simp [digitalWrite, emit, STATUS_LED_PIN, PUMP_PIN]

theorem startWateringCycle_eq (m : Machine) :
    startWateringCycle m =
      { m with pump := false, led := false, log := m.log ++ wateringEvents } := by
  simp [startWateringCycle, wateringEvents, digitalWrite_pump, digitalWrite_led, emit,
    Serial_println, delay, LOW]

theorem indicateGoodCondition_eq (m : Machine) :
    indicateGoodCondition m =
      { m with led := false, log := m.log ++ doubleBlinkEvents } := by
  simp [indicateGoodCondition, doubleBlinkEvents, forLoop, List.range', digitalWrite_led,
    emit, Serial_println, delay, LOW]

theorem indicateMonitoring_eq (m : Machine) :
    indicateMonitoring m =
      { m with led := false, log := m.log ++ singleBlinkEvents } := by
  simp [indicateMonitoring, singleBlinkEvents, digitalWrite_led, emit, Serial_println,
    delay, LOW]

theorem setup_eq (r : Int) (m : Machine) :
    setup r m =
      { moistureLevel := r, pump := false, led := false, log := m.log ++ setupEvents r } := by
  by_cases h : r = 0 <;>
    simp [setup, setupEvents, analogRead, digitalWrite_pump, digitalWrite_led, emit,
      pinMode, Serial_begin, Serial_print, Serial_println, Serial_printlnInt,
      Serial_printlnEmpty, delay, LOW, h]

theorem loop_eq (r : Int) (m : Machine) :
    loop r m =
      { moistureLevel := r,
        pump := if r > DRY_THRESHOLD then false else m.pump,
        led := false,
        log := m.log ++ loopEvents r } := by
  by_cases h1 : r > DRY_THRESHOLD
  · simp [loop, loopEvents, analogRead, startWateringCycle_eq, emit, Serial_print,
      Serial_println, Serial_printlnInt, delay, h1]
  · by_cases h2 : r < WET_THRESHOLD
    · simp [loop, loopEvents, analogRead, indicateGoodCondition_eq, emit, Serial_print,
        Serial_println, Serial_printlnInt, delay, h1, h2]
    · simp [loop, loopEvents, analogRead, indicateMonitoring_eq, emit, Serial_print,
        Serial_println, Serial_printlnInt, delay, h1, h2]

theorem emitted_of_log {p : Machine → Machine} {m : Machine} {evs : List Event}
    (h : (p m).log = m.log ++ evs) : emitted p m = evs := by
  simp [emitted, h]

theorem emitted_startWateringCycle (m : Machine) :
    emitted startWateringCycle m = wateringEvents :=
  emitted_of_log (by rw [startWateringCycle_eq])

theorem emitted_indicateGoodCondition (m : Machine) :
    emitted indicateGoodCondition m = doubleBlinkEvents :=
  emitted_of_log (by rw [indicateGoodCondition_eq])

theorem emitted_indicateMonitoring (m : Machine) :
    emitted indicateMonitoring m = singleBlinkEvents :=
  emitted_of_log (by rw [indicateMonitoring_eq])

theorem emitted_setup (r : Int) (m : Machine) : emitted (setup r) m = setupEvents r :=
  emitted_of_log (by rw [setup_eq])

theorem emitted_loop (r : Int) (m : Machine) : emitted (loop r) m = loopEvents r :=
  emitted_of_log (by rw [loop_eq])

/-! ## The decision of `loop()` -/

theorem selectsDry_iff (r : Int) (m : Machine) : SelectsDry r m ↔ 700 < r := by
  by_cases h1 : r > DRY_THRESHOLD
  · have h1c := h1
    simp only [DRY_THRESHOLD] at h1c
    simp [SelectsDry, loop_eq, loopEpilogue, dryBranch, loopPrologue, loopEvents,
      analogRead, startWateringCycle_eq, emit, Serial_print, Serial_println,
      Serial_printlnInt, delay, h1, h1c]
  · have h1c := h1
    simp only [DRY_THRESHOLD] at h1c
    by_cases h2 : r < WET_THRESHOLD <;>
      simp [SelectsDry, loop_eq, loopEpilogue, dryBranch, loopPrologue, loopEvents,
        analogRead, startWateringCycle_eq, emit, Serial_print, Serial_println,
        Serial_printlnInt, delay, h1, h2, h1c, wateringEvents, doubleBlinkEvents,
        singleBlinkEvents]

theorem selectsWet_iff (r : Int) (m : Machine) : SelectsWet r m ↔ r < 400 := by
  by_cases h1 : r > DRY_THRESHOLD
  · have h1c := h1
    simp only [DRY_THRESHOLD] at h1c
    have h2c : ¬ r < 400 := by omega
    simp [SelectsWet, loop_eq, loopEpilogue, wetBranch, loopPrologue, loopEvents,
      analogRead, indicateGoodCondition_eq, emit, Serial_print, Serial_println,
      Serial_printlnInt, delay, h1, h2c, wateringEvents, doubleBlinkEvents]
  · by_cases h2 : r < WET_THRESHOLD
    · have h2c := h2
      simp only [WET_THRESHOLD] at h2c
      simp [SelectsWet, loop_eq, loopEpilogue, wetBranch, loopPrologue, loopEvents,
        analogRead, indicateGoodCondition_eq, emit, Serial_print, Serial_println,
        Serial_printlnInt, delay, h1, h2, h2c]
    · have h2c := h2
      simp only [WET_THRESHOLD] at h2c
      simp [SelectsWet, loop_eq, loopEpilogue, wetBranch, loopPrologue, loopEvents,
        analogRead, indicateGoodCondition_eq, emit, Serial_print, Serial_println,
        Serial_printlnInt, delay, h1, h2, h2c, singleBlinkEvents, doubleBlinkEvents]

theorem selectsMoist_iff (r : Int) (m : Machine) :
    SelectsMoist r m ↔ 400 ≤ r ∧ r ≤ 700 := by
  by_cases h1 : r > DRY_THRESHOLD
  · have h1c := h1
    simp only [DRY_THRESHOLD] at h1c
    have h3 : ¬ (400 ≤ r ∧ r ≤ 700) := by omega
    simp only [h3, iff_false]
    simp [SelectsMoist, loop_eq, loopEpilogue, moistBranch, loopPrologue, loopEvents,
      analogRead, indicateMonitoring_eq, emit, Serial_print, Serial_println,
      Serial_printlnInt, delay, h1, wateringEvents, singleBlinkEvents]
  · by_cases h2 : r < WET_THRESHOLD
    · have h2c := h2
      simp only [WET_THRESHOLD] at h2c
      have h3 : ¬ (400 ≤ r ∧ r ≤ 700) := by omega
      simp only [h3, iff_false]
      simp [SelectsMoist, loop_eq, loopEpilogue, moistBranch, loopPrologue, loopEvents,
        analogRead, indicateMonitoring_eq, emit, Serial_print, Serial_println,
        Serial_printlnInt, delay, h1, h2, doubleBlinkEvents, singleBlinkEvents]
    · have h3 : 400 ≤ r ∧ r ≤ 700 := by
        simp only [WET_THRESHOLD, DRY_THRESHOLD] at h1 h2
        omega
      simp only [h3, and_self, iff_true]
      simp [SelectsMoist, loop_eq, loopEpilogue, moistBranch, loopPrologue, loopEvents,
        analogRead, indicateMonitoring_eq, emit, Serial_print, Serial_println,
        Serial_printlnInt, delay, h1, h2]

/-- C1: for every reading `r` (and every entry state), `loop()` runs the DRY
branch (`startWateringCycle`) iff `r > 700`, the WET branch
(`indicateGoodCondition`) iff `r < 400`, the MOIST branch (`indicateMonitoring`)
iff `400 ≤ r ≤ 700`, and exactly one of the three; 399 is WET, 400 and 700 are
MOIST, 701 is DRY. -/
theorem C1_loop_selects_exactly_one_branch (r : Int) (m : Machine) :
    (SelectsDry r m ↔ 700 < r) ∧
    (SelectsWet r m ↔ r < 400) ∧
    (SelectsMoist r m ↔ 400 ≤ r ∧ r ≤ 700) ∧
    ((SelectsDry r m ∧ ¬ SelectsWet r m ∧ ¬ SelectsMoist r m) ∨
     (¬ SelectsDry r m ∧ SelectsWet r m ∧ ¬ SelectsMoist r m) ∨
     (¬ SelectsDry r m ∧ ¬ SelectsWet r m ∧ SelectsMoist r m)) ∧
    SelectsWet 399 m ∧ SelectsMoist 400 m ∧ SelectsMoist 700 m ∧ SelectsDry 701 m := by
  refine ⟨selectsDry_iff r m, selectsWet_iff r m, selectsMoist_iff r m, ?_,
    (selectsWet_iff 399 m).2 (by decide), (selectsMoist_iff 400 m).2 (by decide),
    (selectsMoist_iff 700 m).2 (by decide), (selectsDry_iff 701 m).2 (by decide)⟩
  rw [selectsDry_iff, selectsWet_iff, selectsMoist_iff]
  omega

/-! ## Pin levels along an event sequence -/

theorem pinsAfter_append (lv : Bool × Bool) (a b : List Event) :
    pinsAfter lv (a ++ b) = pinsAfter (pinsAfter lv a) b := by
  simp [pinsAfter, List.foldl_append]

theorem pumpWrites_append (a b : List Event) :
    pumpWrites (a ++ b) = pumpWrites a ++ pumpWrites b := by
  simp [pumpWrites]

theorem pinsAfter_fst_of_no_pumpWrites (evs : List Event) :
    ∀ lv : Bool × Bool, pumpWrites evs = [] → (pinsAfter lv evs).1 = lv.1 := by
  induction evs with
  | nil => intro lv _; rfl
  | cons e rest ih =>
    intro lv h
    have hsplit : pumpWrites (e :: rest) = pumpWrites [e] ++ pumpWrites rest :=
      pumpWrites_append [e] rest
    rw [hsplit] at h
    have h1 : pumpWrites [e] = [] := (List.append_eq_nil.1 h).1
    have h2 : pumpWrites rest = [] := (List.append_eq_nil.1 h).2
    have hstep : (pinStep lv e).1 = lv.1 := by
      cases e with
      | digitalWrite pin level =>
        by_cases hp : pin = PUMP_PIN
        · simp [pumpWrites, hp] at h1
        · by_cases hq : pin = STATUS_LED_PIN
          · simp [pinStep, hq, STATUS_LED_PIN, PUMP_PIN]
          · simp [pinStep, hp, hq]
      | _ => rfl
    have := ih (pinStep lv e) h2
    simpa [pinsAfter, hstep] using this

theorem pump_unchanged_along (evs : List Event) (lv : Bool × Bool)
    (h : pumpWrites evs = []) (pre post : List Event) (hsplit : evs = pre ++ post) :
    (pinsAfter lv pre).1 = lv.1 := by
  subst hsplit
  rw [pumpWrites_append] at h
  exact pinsAfter_fst_of_no_pumpWrites pre lv (List.append_eq_nil.1 h).1

/-! ## The three routines -/

/-- C2: for a reading `r > 700` and pump and LED off on entry, `loop()` calls
`startWateringCycle`, whose pin writes and delays are exactly pump ON, LED ON,
delay 2000 ms, pump OFF, LED OFF: the pump goes OFF, ON, OFF, the LED is on
during the hold, the routine blocks for 2000 ms in total and leaves both
outputs off. -/
theorem C2_watering_cycle_sequence (r : Int) (m : Machine) (hr : 700 < r)
    (hp : m.pump = false) (hl : m.led = false) :
    SelectsDry r m ∧
    outputEvents (emitted startWateringCycle m) =
      [Event.digitalWrite PUMP_PIN true, Event.digitalWrite STATUS_LED_PIN true,
       Event.delay 2000,
       Event.digitalWrite PUMP_PIN false, Event.digitalWrite STATUS_LED_PIN false] ∧
    pinHistory (m.pump, m.led) (outputEvents (emitted startWateringCycle m)) =
      [(true, false), (true, true), (true, true), (false, true), (false, false)] ∧
    totalDelay (emitted startWateringCycle m) = 2000 ∧
    (startWateringCycle m).pump = false ∧ (startWateringCycle m).led = false ∧
    outputEvents (emitted (loop r) m) =
      outputEvents (emitted startWateringCycle m) ++ [Event.delay 3000] := by
  have hr2 : r > DRY_THRESHOLD := hr
  refine ⟨(selectsDry_iff r m).2 hr, ?_, ?_, ?_, ?_, ?_, ?_⟩
  · simp [emitted_startWateringCycle, wateringEvents, outputEvents, HIGH, LOW, WATERING_TIME]
  · simp [emitted_startWateringCycle, wateringEvents, outputEvents, pinHistory, pinStep,
      HIGH, LOW, hp, hl, PUMP_PIN, STATUS_LED_PIN]
  · simp [emitted_startWateringCycle, wateringEvents, totalDelay, WATERING_TIME]
  · simp [startWateringCycle_eq]
  · simp [startWateringCycle_eq]
  · simp [emitted_loop, loopEvents, hr2, emitted_startWateringCycle, wateringEvents,
      outputEvents, CYCLE_DELAY]

/-- Witness for C2 at the reading 850 from the reset state. -/
theorem C2_watering_cycle_sequence_witness :
    (700 : Int) < 850 ∧ powerOn.pump = false ∧ powerOn.led = false ∧
    SelectsDry 850 powerOn ∧
    outputEvents (emitted startWateringCycle powerOn) =
      [Event.digitalWrite PUMP_PIN true, Event.digitalWrite STATUS_LED_PIN true,
       Event.delay 2000,
       Event.digitalWrite PUMP_PIN false, Event.digitalWrite STATUS_LED_PIN false] ∧
    pinHistory (powerOn.pump, powerOn.led) (outputEvents (emitted startWateringCycle powerOn)) =
      [(true, false), (true, true), (true, true), (false, true), (false, false)] ∧
    totalDelay (emitted startWateringCycle powerOn) = 2000 ∧
    (startWateringCycle powerOn).pump = false ∧ (startWateringCycle powerOn).led = false ∧
    outputEvents (emitted (loop 850) powerOn) =
      outputEvents (emitted startWateringCycle powerOn) ++ [Event.delay 3000] :=
  ⟨by decide, rfl, rfl, C2_watering_cycle_sequence 850 powerOn (by decide) rfl rfl⟩

/-- C3: for a reading `r < 400` and the pump off on entry, `loop()` calls
`indicateGoodCondition`, whose pin writes and delays are exactly LED ON, 500 ms,
LED OFF, 500 ms, twice (2000 ms in total); neither the routine nor the rest of
the iteration writes the pump pin, so the pump is off after every event of the
iteration. -/
theorem C3_double_blink_sequence (r : Int) (m : Machine) (hr : r < 400)
    (hp : m.pump = false) :
    SelectsWet r m ∧
    outputEvents (emitted indicateGoodCondition m) =
      [Event.digitalWrite STATUS_LED_PIN true, Event.delay 500,
       Event.digitalWrite STATUS_LED_PIN false, Event.delay 500,
       Event.digitalWrite STATUS_LED_PIN true, Event.delay 500,
       Event.digitalWrite STATUS_LED_PIN false, Event.delay 500] ∧
    totalDelay (emitted indicateGoodCondition m) = 2000 ∧
    pumpWrites (emitted indicateGoodCondition m) = [] ∧
    pumpWrites (emitted (loop r) m) = [] ∧
    (∀ pre post, emitted (loop r) m = pre ++ post →
      (pinsAfter (m.pump, m.led) pre).1 = false) ∧
    (loop r m).pump = false := by
  have h1 : ¬ r > DRY_THRESHOLD := by simp only [DRY_THRESHOLD]; omega
  have h2 : r < WET_THRESHOLD := hr
  have hw : pumpWrites (emitted (loop r) m) = [] := by
    simp [emitted_loop, loopEvents, h1, h2, doubleBlinkEvents, pumpWrites, PUMP_PIN,
      STATUS_LED_PIN]
  refine ⟨(selectsWet_iff r m).2 hr, ?_, ?_, ?_, hw, ?_, ?_⟩
  · simp [emitted_indicateGoodCondition, doubleBlinkEvents, outputEvents, HIGH, LOW,
      BLINK_SLOW]
  · simp [emitted_indicateGoodCondition, doubleBlinkEvents, totalDelay, BLINK_SLOW]
  · simp [emitted_indicateGoodCondition, doubleBlinkEvents, pumpWrites, PUMP_PIN,
      STATUS_LED_PIN]
  · intro pre post hsplit
    have := pump_unchanged_along _ (m.pump, m.led) hw pre post hsplit
    simpa [hp] using this
  · simp [loop_eq, h1, hp]

/-- Witness for C3 at the reading 350 from the reset state. -/
theorem C3_double_blink_sequence_witness :
    (350 : Int) < 400 ∧ powerOn.pump = false ∧
    SelectsWet 350 powerOn ∧
    outputEvents (emitted indicateGoodCondition powerOn) =
      [Event.digitalWrite STATUS_LED_PIN true, Event.delay 500,
       Event.digitalWrite STATUS_LED_PIN false, Event.delay 500,
       Event.digitalWrite STATUS_LED_PIN true, Event.delay 500,
       Event.digitalWrite STATUS_LED_PIN false, Event.delay 500] ∧
    totalDelay (emitted indicateGoodCondition powerOn) = 2000 ∧
    pumpWrites (emitted indicateGoodCondition powerOn) = [] ∧
    pumpWrites (emitted (loop 350) powerOn) = [] ∧
    (∀ pre post, emitted (loop 350) powerOn = pre ++ post →
      (pinsAfter (powerOn.pump, powerOn.led) pre).1 = false) ∧
    (loop 350 powerOn).pump = false :=
  ⟨by decide, rfl, C3_double_blink_sequence 350 powerOn (by decide) rfl⟩

/-- C4: for a reading `400 ≤ r ≤ 700` and the pump off on entry, `loop()` calls
`indicateMonitoring`, whose pin writes and delays are exactly LED ON, 200 ms,
LED OFF (200 ms in total, the LED OFF write being its last event); neither the
routine nor the rest of the iteration writes the pump pin, so the pump is off
after every event of the iteration. -/
theorem C4_single_blink_sequence (r : Int) (m : Machine) (hlo : 400 ≤ r) (hhi : r ≤ 700)
    (hp : m.pump = false) :
    SelectsMoist r m ∧
    outputEvents (emitted indicateMonitoring m) =
      [Event.digitalWrite STATUS_LED_PIN true, Event.delay 200,
       Event.digitalWrite STATUS_LED_PIN false] ∧
    totalDelay (emitted indicateMonitoring m) = 200 ∧
    (emitted indicateMonitoring m).getLast? =
      some (Event.digitalWrite STATUS_LED_PIN false) ∧
    pumpWrites (emitted indicateMonitoring m) = [] ∧
    pumpWrites (emitted (loop r) m) = [] ∧
    (∀ pre post, emitted (loop r) m = pre ++ post →
      (pinsAfter (m.pump, m.led) pre).1 = false) ∧
    (loop r m).pump = false := by
  have h1 : ¬ r > DRY_THRESHOLD := by simp only [DRY_THRESHOLD]; omega
  have h2 : ¬ r < WET_THRESHOLD := by simp only [WET_THRESHOLD]; omega
  have hw : pumpWrites (emitted (loop r) m) = [] := by
    simp [emitted_loop, loopEvents, h1, h2, singleBlinkEvents, pumpWrites, PUMP_PIN,
      STATUS_LED_PIN]
  refine ⟨(selectsMoist_iff r m).2 ⟨hlo, hhi⟩, ?_, ?_, ?_, ?_, hw, ?_, ?_⟩
  · simp [emitted_indicateMonitoring, singleBlinkEvents, outputEvents, HIGH, LOW,
      BLINK_FAST]
  · simp [emitted_indicateMonitoring, singleBlinkEvents, totalDelay, BLINK_FAST]
  · simp [emitted_indicateMonitoring, singleBlinkEvents, LOW]
  · simp [emitted_indicateMonitoring, singleBlinkEvents, pumpWrites, PUMP_PIN,
      STATUS_LED_PIN]
  · intro pre post hsplit
    have := pump_unchanged_along _ (m.pump, m.led) hw pre post hsplit
    simpa [hp] using this
  · simp [loop_eq, h1, hp]

/-- Witness for C4 at the reading 500 from the reset state. -/
theorem C4_single_blink_sequence_witness :
    (400 : Int) ≤ 500 ∧ (500 : Int) ≤ 700 ∧ powerOn.pump = false ∧
    SelectsMoist 500 powerOn ∧
    outputEvents (emitted indicateMonitoring powerOn) =
      [Event.digitalWrite STATUS_LED_PIN true, Event.delay 200,
       Event.digitalWrite STATUS_LED_PIN false] ∧
    totalDelay (emitted indicateMonitoring powerOn) = 200 ∧
    (emitted indicateMonitoring powerOn).getLast? =
      some (Event.digitalWrite STATUS_LED_PIN false) ∧
    pumpWrites (emitted indicateMonitoring powerOn) = [] ∧
    pumpWrites (emitted (loop 500) powerOn) = [] ∧
    (∀ pre post, emitted (loop 500) powerOn = pre ++ post →
      (pinsAfter (powerOn.pump, powerOn.led) pre).1 = false) ∧
    (loop 500 powerOn).pump = false :=
  ⟨by decide, by decide, rfl,
    C4_single_blink_sequence 500 powerOn (by decide) (by decide) rfl⟩

/-! ## Whole runs -/

theorem loops_log (rs : List Int) :
    ∀ m : Machine, (rs.foldl (fun acc r => loop r acc) m).log = m.log ++ loopsEvents rs := by
  induction rs with
  | nil => intro m; simp [loopsEvents]
  | cons r rest ih =>
    intro m
    simp only [List.foldl_cons, ih, loopsEvents]
    simp [loop_eq]

theorem loops_pins (rs : List Int) :
    ∀ m : Machine, m.pump = false → m.led = false →
      (rs.foldl (fun acc r => loop r acc) m).pump = false ∧
      (rs.foldl (fun acc r => loop r acc) m).led = false := by
  induction rs with
  | nil => intro m hp hl; exact ⟨hp, hl⟩
  | cons r rest ih =>
    intro m hp _
    simp only [List.foldl_cons]
    apply ih
    · simp [loop_eq, hp]
    · simp [loop_eq]

theorem run_log (r0 : Int) (rs : List Int) (m : Machine) :
    (run r0 rs m).log = m.log ++ (setupEvents r0 ++ loopsEvents rs) := by
  simp [run, loops_log, setup_eq]

theorem emitted_run (r0 : Int) (rs : List Int) (m : Machine) :
    emitted (run r0 rs) m = setupEvents r0 ++ loopsEvents rs :=
  emitted_of_log (run_log r0 rs m)

theorem run_pins (r0 : Int) (rs : List Int) (m : Machine) :
    (run r0 rs m).pump = false ∧ (run r0 rs m).led = false := by
  unfold run
  apply loops_pins <;> simp [setup_eq]

theorem pump_off_of_no_high (evs : List Event) :
    ∀ l : Bool, (∀ e ∈ evs, e ≠ Event.digitalWrite PUMP_PIN true) →
      (pinsAfter (false, l) evs).1 = false := by
  induction evs with
  | nil => intro l _; rfl
  | cons e rest ih =>
    intro l h
    have he : e ≠ Event.digitalWrite PUMP_PIN true := h e (List.mem_cons_self _ _)
    have hrest : ∀ x ∈ rest, x ≠ Event.digitalWrite PUMP_PIN true :=
      fun x hx => h x (List.mem_cons_of_mem _ hx)
    have hstep : ∃ l2, pinStep (false, l) e = (false, l2) := by
      cases e with
      | digitalWrite pin level =>
        by_cases hp : pin = PUMP_PIN
        · subst hp
          cases level with
          | true => exact absurd rfl he
          | false => exact ⟨l, by simp [pinStep]⟩
        · by_cases hq : pin = STATUS_LED_PIN
          · exact ⟨level, by simp [pinStep, hq, STATUS_LED_PIN, PUMP_PIN]⟩
          · exact ⟨l, by simp [pinStep, hp, hq]⟩
      | _ => exact ⟨l, rfl⟩
    obtain ⟨l2, hl2⟩ := hstep
    have := ih l2 hrest
    simpa [pinsAfter, hl2] using this

theorem setupEvents_no_high (r0 : Int) :
    ∀ e ∈ setupEvents r0, e ≠ Event.digitalWrite PUMP_PIN true := by
  intro e he heq
  subst heq
  by_cases h : r0 = 0 <;> simp [setupEvents, h, LOW, PUMP_PIN, STATUS_LED_PIN] at he

theorem loopEvents_no_high (r : Int) (h : r ≤ 700) :
    ∀ e ∈ loopEvents r, e ≠ Event.digitalWrite PUMP_PIN true := by
  intro e he heq
  subst heq
  have h1 : ¬ r > DRY_THRESHOLD := by simp only [DRY_THRESHOLD]; omega
  by_cases h2 : r < WET_THRESHOLD <;>
    simp [loopEvents, h1, h2, doubleBlinkEvents, singleBlinkEvents, LOW, HIGH, PUMP_PIN,
      STATUS_LED_PIN] at he

theorem loopEvents_pins (r : Int) (l : Bool) :
    pinsAfter (false, l) (loopEvents r) = (false, false) := by
  by_cases h1 : r > DRY_THRESHOLD
  · simp [loopEvents, h1, wateringEvents, pinsAfter, pinStep, PUMP_PIN, STATUS_LED_PIN,
      HIGH, LOW]
  · by_cases h2 : r < WET_THRESHOLD <;>
      simp [loopEvents, h1, h2, doubleBlinkEvents, singleBlinkEvents, pinsAfter, pinStep,
        PUMP_PIN, STATUS_LED_PIN, HIGH, LOW]

theorem mem_of_split {evs pre post : List Event} (h : evs = pre ++ post) :
    ∀ e ∈ pre, e ∈ evs := by
  intro e he
  rw [h]
  exact List.mem_append_left _ he

theorem loop_hold (r : Int) (l : Bool) (pre post : List Event)
    (h : loopEvents r = pre ++ post) (hon : (pinsAfter (false, l) pre).1 = true) :
    700 < r ∧ InWateringHold pre post ∧ 0 < pre.length ∧
      pre.length < (loopEvents r).length := by
  by_cases h1 : r > DRY_THRESHOLD
  · have hr : 700 < r := h1
    have hpre : pre = (loopEvents r).take pre.length := by rw [h]; simp
    have hpost : post = (loopEvents r).drop pre.length := by rw [h]; simp
    generalize pre.length = k at hpre hpost
    subst hpre hpost
    refine ⟨hr, ?_⟩
    have hk : 8 ≤ k ∧ k ≤ 11 := by
      by_cases hk : k ≤ 17
      · interval_cases k <;>
          first
          | omega
          | (exfalso
             simp [loopEvents, h1, wateringEvents, pinsAfter, pinStep, PUMP_PIN,
               STATUS_LED_PIN, HIGH, LOW] at hon)
      · exfalso
        have hlen : (loopEvents r).length ≤ k := by
          simp [loopEvents, h1, wateringEvents]; omega
        rw [List.take_of_length_le hlen, loopEvents_pins] at hon
        simp at hon
    obtain ⟨hk1, hk2⟩ := hk
    have hL : (loopEvents r).length = 17 := by simp [loopEvents, h1, wateringEvents]
    refine ⟨⟨List.take 7 (loopEvents r), List.drop 7 (List.take k (loopEvents r)),
      List.take (11 - k) (List.drop k (loopEvents r)), List.drop 12 (loopEvents r),
      ?_, ?_, ?_, ?_⟩, ?_, ?_⟩
    · interval_cases k <;> simp [loopEvents, h1, wateringEvents]
    · interval_cases k <;> simp [loopEvents, h1, wateringEvents]
    · interval_cases k <;> simp [loopEvents, h1, wateringEvents]
    · interval_cases k <;> simp [loopEvents, h1, wateringEvents]
    · omega
    · rw [hL]; omega
  · exfalso
    have hr : r ≤ 700 := by simp only [DRY_THRESHOLD] at h1; omega
    have := pump_off_of_no_high pre l
      (fun e he => loopEvents_no_high r hr e (mem_of_split h e he))
    rw [this] at hon
    simp at hon

theorem inWateringHold_extend {pre post : List Event} (h : InWateringHold pre post)
    (before after : List Event) : InWateringHold (before ++ pre) (post ++ after) := by
  obtain ⟨a, b, c, d, h1, h2, h3, h4⟩ := h
  exact ⟨before ++ a, b, c, d ++ after, by simp [h1], h2, h3, by simp [h4]⟩

theorem loopsEvents_append (xs ys : List Int) :
    loopsEvents (xs ++ ys) = loopsEvents xs ++ loopsEvents ys := by
  induction xs with
  | nil => rfl
  | cons x rest ih => simp [loopsEvents, ih]

theorem loops_hold (rs : List Int) :
    ∀ pre post : List Event, loopsEvents rs = pre ++ post →
      (pinsAfter (false, false) pre).1 = true →
      InWateringHold pre post ∧
      ∃ i r, rs[i]? = some r ∧ 700 < r ∧
        (loopsEvents (rs.take i)).length < pre.length ∧
        pre.length < (loopsEvents (rs.take (i + 1))).length := by
  induction rs with
  | nil =>
    intro pre post h hon
    have hpre : pre = [] := by
      have := congrArg List.length h
      simp only [loopsEvents, List.length_nil, List.length_append] at this
      exact List.length_eq_zero.1 (by omega)
    subst hpre
    simp [pinsAfter] at hon
  | cons r rest ih =>
    intro pre post h hon
    simp only [loopsEvents] at h
    rcases List.append_eq_append_iff.1 h with ⟨a, ha1, ha2⟩ | ⟨c, hc1, hc2⟩
    · -- the point lies in a later iteration
      subst ha1
      rw [pinsAfter_append, loopEvents_pins] at hon
      obtain ⟨hh, i, x, hx, hxr, hlo, hhi⟩ := ih a post ha2 hon
      refine ⟨?_, i + 1, x, by simpa using hx, hxr, ?_, ?_⟩
      · simpa using inWateringHold_extend hh (loopEvents r) []
      · simp [loopsEvents]; omega
      · simp [loopsEvents]; omega
    · -- the point lies in this iteration
      obtain ⟨hr, hh, hlo, hhi⟩ := loop_hold r false pre c hc1 hon
      subst hc2
      refine ⟨?_, 0, r, by simp, hr, ?_, ?_⟩
      · simpa using inWateringHold_extend hh [] (loopsEvents rest)
      · simpa [loopsEvents] using hlo
      · simpa [loopsEvents] using hhi

theorem setupEvents_pins (r0 : Int) (lv : Bool × Bool) :
    pinsAfter lv (setupEvents r0) = (false, false) := by
  by_cases h : r0 = 0 <;>
    simp [setupEvents, h, pinsAfter, pinStep, PUMP_PIN, STATUS_LED_PIN, LOW]

theorem loopsEvents_pins (rs : List Int) :
    pinsAfter (false, false) (loopsEvents rs) = (false, false) := by
  induction rs with
  | nil => rfl
  | cons r rest ih => simp [loopsEvents, pinsAfter_append, loopEvents_pins, ih]

/-- In the run with startup reading 0 and one iteration reading 850 the pump is
ON after the first 28 events (the pump ON write of the watering cycle) and OFF
again after the first 32 (the pump OFF write). -/
theorem run_850_pump_levels :
    (pinsAfter (false, false) ((emitted (run 0 [850]) powerOn).take 28)).1 = true ∧
    (pinsAfter (false, false) ((emitted (run 0 [850]) powerOn).take 31)).1 = true ∧
    (pinsAfter (false, false) ((emitted (run 0 [850]) powerOn).take 32)).1 = false := by
  simp [emitted_run, setupEvents, loopsEvents, loopEvents, wateringEvents, DRY_THRESHOLD,
    pinsAfter, pinStep, PUMP_PIN, STATUS_LED_PIN, HIGH, LOW]

/-- C5: in the run `setup()` followed by one `loop()` per reading, both outputs
are off when `setup()` returns and after every completed iteration; an iteration
whose reading is at most 700 never writes the pump ON; replaying the events of
the run reproduces the pin levels; and at every point of the run where the pump
is ON, the point lies strictly inside an iteration whose reading is above 700,
between the pump ON write of `startWateringCycle` and the pump OFF write that
follows its 2000 ms delay. -/
theorem C5_pump_on_only_in_watering_hold (r0 : Int) (rs : List Int) (m : Machine) :
    ((setup r0 m).pump = false ∧ (setup r0 m).led = false) ∧
    (∀ n, (run r0 (rs.take n) m).pump = false ∧ (run r0 (rs.take n) m).led = false) ∧
    (∀ (r : Int) (m1 : Machine), r ≤ 700 →
      Event.digitalWrite PUMP_PIN true ∉ emitted (loop r) m1) ∧
    pinsAfter (m.pump, m.led) (emitted (run r0 rs) m) =
      ((run r0 rs m).pump, (run r0 rs m).led) ∧
    (∀ pre post, emitted (run r0 rs) m = pre ++ post →
      (pinsAfter (powerOn.pump, powerOn.led) pre).1 = true →
      InWateringHold pre post ∧
      ∃ i r, rs[i]? = some r ∧ 700 < r ∧
        (emitted (run r0 (rs.take i)) m).length < pre.length ∧
        pre.length < (emitted (run r0 (rs.take (i + 1))) m).length) := by
  refine ⟨by simp [setup_eq], fun n => run_pins r0 _ m, ?_, ?_, ?_⟩
  · intro r m1 hr hmem
    rw [emitted_loop] at hmem
    exact loopEvents_no_high r hr _ hmem rfl
  · rw [emitted_run, pinsAfter_append, setupEvents_pins, loopsEvents_pins,
      (run_pins r0 rs m).1, (run_pins r0 rs m).2]
  · intro pre post h hon
    simp only [emitted_run] at h ⊢
    have hon2 : (pinsAfter (false, false) pre).1 = true := hon
    rcases List.append_eq_append_iff.1 h with ⟨a, ha1, ha2⟩ | ⟨c, hc1, _⟩
    · subst ha1
      rw [pinsAfter_append, setupEvents_pins] at hon2
      obtain ⟨hh, i, x, hx, hxr, hlo, hhi⟩ := loops_hold rs a post ha2 hon2
      refine ⟨?_, i, x, hx, hxr, ?_, ?_⟩
      · simpa using inWateringHold_extend hh (setupEvents r0) []
      · simp only [List.length_append]; omega
      · simp only [List.length_append]; omega
    · exfalso
      have := pump_off_of_no_high pre false
        (fun e he => setupEvents_no_high r0 e (mem_of_split hc1 e he))
      rw [this] at hon2
      simp at hon2

/-! ## Startup -/

/-- C6: for every startup reading `r`, `setup()` prints the wiring hint iff
`r = 0`; in both cases it performs exactly one sensor read, leaves both outputs
off, stores the reading, prints the "System ready" line and ends with its only
delay, 2000 ms.  Its events are the fixed startup lines, the read and the
printed reading, the hint when `r = 0`, and the fixed closing events, so the
sequence for a non-zero reading is that for 0 with the hint removed and the
reading replaced. -/
theorem C6_setup_wiring_hint_is_advisory (r : Int) (m : Machine) :
    (wiringHint ∈ emitted (setup r) m ↔ r = 0) ∧
    sensorReads (emitted (setup r) m) = [Event.analogRead MOISTURE_SENSOR_PIN r] ∧
    ((setup r m).pump = false ∧ (setup r m).led = false ∧ (setup r m).moistureLevel = r) ∧
    Event.println "System ready! Starting monitoring..." ∈ emitted (setup r) m ∧
    delays (emitted (setup r) m) = [2000] ∧
    (emitted (setup r) m).getLast? = some (Event.delay 2000) ∧
    emitted (setup r) m =
      (emitted (setup r) m).take 13 ++
      [Event.analogRead MOISTURE_SENSOR_PIN r,
       Event.print "Initial Sensor Reading: ",
       Event.printlnInt r] ++
      (if r = 0 then [wiringHint] else []) ++
      [Event.println "System ready! Starting monitoring...",
       Event.printlnEmpty,
       Event.delay 2000] ∧
    (emitted (setup r) m).take 13 = (emitted (setup 0) m).take 13 ∧
    withoutHint (emitted (setup r) m) =
      (withoutHint (emitted (setup 0) m)).map (withReading r) ∧
    (r ≠ 0 → emitted (setup r) m =
      (withoutHint (emitted (setup 0) m)).map (withReading r)) := by
  simp only [emitted_setup]
  by_cases h : r = 0
  · subst h
    simp [setupEvents, wiringHint, sensorReads, delays, withoutHint, withReading, setup_eq,
      ruleLine_ne_hint, hint_ne_ruleLine, ready_ne_ruleLine]
  · simp [setupEvents, wiringHint, sensorReads, delays, withoutHint, withReading, setup_eq, h,
      ruleLine_ne_hint, hint_ne_ruleLine, ready_ne_ruleLine]

/-! ## The range "700-1023 = DRY" of the banner -/

/-- C7, counterexample: the reading 700 is not treated as DRY; `loop()` runs the
MOIST branch and performs no pump write at all. -/
theorem C7_reading_700_is_moist_not_dry :
    ¬ SelectsDry 700 powerOn ∧ SelectsMoist 700 powerOn ∧
    pumpWrites (emitted (loop 700) powerOn) = [] ∧
    outputEvents (emitted (loop 700) powerOn) =
      [Event.digitalWrite STATUS_LED_PIN true, Event.delay 200,
       Event.digitalWrite STATUS_LED_PIN false, Event.delay 3000] := by
  refine ⟨?_, (selectsMoist_iff 700 powerOn).2 (by decide), ?_, ?_⟩
  · rw [selectsDry_iff]; decide
  · simp [emitted_loop, loopEvents, DRY_THRESHOLD, WET_THRESHOLD, singleBlinkEvents,
      pumpWrites, PUMP_PIN, STATUS_LED_PIN]
  · simp [emitted_loop, loopEvents, DRY_THRESHOLD, WET_THRESHOLD, singleBlinkEvents,
      outputEvents, HIGH, LOW, BLINK_FAST, CYCLE_DELAY]

/-- C7, amended: every reading strictly above 700 (so every reading from 701 to
1023) is treated by `loop()` as DRY and starts a watering cycle: the pump is
switched ON, held for the 2000 ms watering time and switched OFF. -/
theorem C7_readings_above_700_start_watering (r : Int) (m : Machine) (hr : 700 < r) :
    SelectsDry r m ∧
    outputEvents (emitted (loop r) m) =
      [Event.digitalWrite PUMP_PIN true, Event.digitalWrite STATUS_LED_PIN true,
       Event.delay WATERING_TIME,
       Event.digitalWrite PUMP_PIN false, Event.digitalWrite STATUS_LED_PIN false,
       Event.delay CYCLE_DELAY] := by
  have hr2 : r > DRY_THRESHOLD := hr
  refine ⟨(selectsDry_iff r m).2 hr, ?_⟩
  simp [emitted_loop, loopEvents, hr2, wateringEvents, outputEvents, HIGH, LOW]

/-- Witness for the amended C7 at the reading 701 from the reset state. -/
theorem C7_readings_above_700_start_watering_witness :
    (700 : Int) < 701 ∧
    SelectsDry 701 powerOn ∧
    outputEvents (emitted (loop 701) powerOn) =
      [Event.digitalWrite PUMP_PIN true, Event.digitalWrite STATUS_LED_PIN true,
       Event.delay WATERING_TIME,
       Event.digitalWrite PUMP_PIN false, Event.digitalWrite STATUS_LED_PIN false,
       Event.delay CYCLE_DELAY] :=
  ⟨by decide, C7_readings_above_700_start_watering 701 powerOn (by decide)⟩

/-! ## Independence from earlier iterations -/

/-- C8: one `loop()` iteration depends on its reading only.  From any two
states the iteration reading `r` performs the same events, stores `r` in
`moistureLevel` and leaves the LED off; from any two states that a run can have
reached (any startup reading, any earlier readings) with any stored
`moistureLevel`, the final states agree in `moistureLevel` and both pins. -/
theorem C8_loop_depends_on_reading_only (r : Int) (m1 m2 : Machine)
    (s1 s2 lvl1 lvl2 : Int) (rs1 rs2 : List Int) :
    (emitted (loop r) m1 = emitted (loop r) m2 ∧
     (loop r m1).log = m1.log ++ emitted (loop r) m1 ∧
     (loop r m1).moistureLevel = r ∧ (loop r m2).moistureLevel = r ∧
     (loop r m1).led = (loop r m2).led) ∧
    (loop r { run s1 rs1 powerOn with moistureLevel := lvl1 }).moistureLevel =
      (loop r { run s2 rs2 powerOn with moistureLevel := lvl2 }).moistureLevel ∧
    (loop r { run s1 rs1 powerOn with moistureLevel := lvl1 }).pump =
      (loop r { run s2 rs2 powerOn with moistureLevel := lvl2 }).pump ∧
    (loop r { run s1 rs1 powerOn with moistureLevel := lvl1 }).led =
      (loop r { run s2 rs2 powerOn with moistureLevel := lvl2 }).led ∧
    emitted (loop r) { run s1 rs1 powerOn with moistureLevel := lvl1 } =
      emitted (loop r) { run s2 rs2 powerOn with moistureLevel := lvl2 } := by
  refine ⟨⟨by simp [emitted_loop], by simp [emitted_loop, loop_eq], by simp [loop_eq],
    by simp [loop_eq], by simp [loop_eq]⟩, by simp [loop_eq], ?_, by simp [loop_eq],
    by simp [emitted_loop]⟩
  simp [loop_eq, (run_pins s1 rs1 powerOn).1, (run_pins s2 rs2 powerOn).1]

/-! ## Timing of one iteration -/

/-- C9: the total blocking delay of one `loop()` iteration is the 3000 ms cycle
sleep plus the delay of the routine it calls; it is 5000 ms when the reading is
above 700, and for every reading it is at least 3000 ms and at most 5000 ms. -/
theorem C9_loop_total_delay (r : Int) (m : Machine) :
    (700 < r → totalDelay (emitted (loop r) m) =
        totalDelay (emitted startWateringCycle m) + CYCLE_DELAY ∧
      totalDelay (emitted (loop r) m) = 5000) ∧
    (r < 400 → totalDelay (emitted (loop r) m) =
        totalDelay (emitted indicateGoodCondition m) + CYCLE_DELAY) ∧
    (400 ≤ r ∧ r ≤ 700 → totalDelay (emitted (loop r) m) =
        totalDelay (emitted indicateMonitoring m) + CYCLE_DELAY) ∧
    CYCLE_DELAY = 3000 ∧
    3000 ≤ totalDelay (emitted (loop r) m) ∧ totalDelay (emitted (loop r) m) ≤ 5000 := by
  simp only [emitted_loop, emitted_startWateringCycle, emitted_indicateGoodCondition,
    emitted_indicateMonitoring]
  by_cases h1 : r > DRY_THRESHOLD
  · have h1c : 700 < r := h1
    have h2c : ¬ r < 400 := by omega
    have h3c : ¬ r ≤ 700 := by omega
    simp [loopEvents, h1, h1c, h2c, h3c, wateringEvents, totalDelay, CYCLE_DELAY,
      WATERING_TIME]
  · by_cases h2 : r < WET_THRESHOLD
    · have h1c : ¬ 700 < r := h1
      have h2c : r < 400 := h2
      have h3c : ¬ 400 ≤ r := by omega
      simp [loopEvents, h1, h2, h1c, h2c, h3c, doubleBlinkEvents, totalDelay, CYCLE_DELAY,
        BLINK_SLOW]
    · have h1c : ¬ 700 < r := h1
      have h2c : ¬ r < 400 := h2
      simp [loopEvents, h1, h2, h1c, h2c, singleBlinkEvents, totalDelay, CYCLE_DELAY,
        BLINK_FAST]

/-! ## Order of the steps of one iteration -/

/-- C10, counterexample: in the iteration reading 850 the status line is
printed before the routine runs, so pin writes and the watering delay still
follow it: the order "dispatch, then report" does not hold. -/
theorem C10_report_does_not_follow_dispatch_at_850 :
    ¬ ReportFollowsDispatch (emitted (loop 850) powerOn) := by
  intro h
  have h2 := h
    [Event.analogRead MOISTURE_SENSOR_PIN 850,
     Event.println "--------------- Soil Check ---------------",
     Event.print "Moisture Reading: ",
     Event.printlnInt 850]
    (Event.println "🚨 STATUS: SOIL IS DRY")
    ([Event.println "💧 ACTION: STARTING WATERING"] ++ wateringEvents ++
      [Event.println "------------------------------------------",
       Event.delay CYCLE_DELAY])
    (by simp [emitted_loop, loopEvents, DRY_THRESHOLD])
    (by simp [isReportLine])
  simp [wateringEvents, outputEvents] at h2

/-- C10, amended: every `loop()` iteration performs exactly one sensor read, as
its first event; then the banner and the reading; then the status line and the
action line; then the events of the routine it calls; then the closing line; and
the 3000 ms sleep as its last event.  No pin write and no delay comes before the
status and action lines. -/
theorem C10_loop_step_order (r : Int) (m : Machine) :
    emitted (loop r) m =
      [Event.analogRead MOISTURE_SENSOR_PIN r,
       Event.println "--------------- Soil Check ---------------",
       Event.print "Moisture Reading: ",
       Event.printlnInt r] ++
      (if 700 < r then
          [Event.println "🚨 STATUS: SOIL IS DRY",
           Event.println "💧 ACTION: STARTING WATERING"] ++ emitted startWateringCycle m
        else if r < 400 then
          [Event.println "✅ STATUS: SOIL IS WET",
           Event.println "🌱 ACTION: No watering needed"] ++ emitted indicateGoodCondition m
        else
          [Event.println "🔍 STATUS: SOIL IS MOIST",
           Event.println "📊 ACTION: Continuing monitoring"] ++ emitted indicateMonitoring m) ++
      [Event.println "------------------------------------------",
       Event.delay 3000] ∧
    sensorReads (emitted (loop r) m) = [Event.analogRead MOISTURE_SENSOR_PIN r] ∧
    (emitted (loop r) m).head? = some (Event.analogRead MOISTURE_SENSOR_PIN r) ∧
    (emitted (loop r) m).getLast? = some (Event.delay 3000) ∧
    ReportPrecedesDispatch (emitted (loop r) m) := by
  simp only [emitted_loop, emitted_startWateringCycle, emitted_indicateGoodCondition,
    emitted_indicateMonitoring]
  refine ⟨?_, ?_, ?_, ?_, ?_⟩
  · simp [loopEvents, DRY_THRESHOLD, WET_THRESHOLD, CYCLE_DELAY]
  · by_cases h1 : r > DRY_THRESHOLD
    · simp [loopEvents, h1, wateringEvents, sensorReads]
    · by_cases h2 : r < WET_THRESHOLD <;>
        simp [loopEvents, h1, h2, doubleBlinkEvents, singleBlinkEvents, sensorReads]
  · simp [loopEvents]
  · by_cases h1 : r > DRY_THRESHOLD
    · simp [loopEvents, h1, wateringEvents, CYCLE_DELAY]
    · by_cases h2 : r < WET_THRESHOLD <;>
        simp [loopEvents, h1, h2, doubleBlinkEvents, singleBlinkEvents, CYCLE_DELAY]
  · intro pre e post hsplit he
    have hP : outputEvents ((loopEvents r).take 6) = [] := by
      by_cases h1 : r > DRY_THRESHOLD
      · simp [loopEvents, h1, outputEvents]
      · by_cases h2 : r < WET_THRESHOLD <;> simp [loopEvents, h1, h2, outputEvents]
    have hR : ∀ x ∈ (loopEvents r).drop 6, isReportLine x = false := by
      intro x hx
      by_cases h1 : r > DRY_THRESHOLD
      · simp [loopEvents, h1, wateringEvents] at hx
        rcases hx with hx | hx | hx | hx | hx | hx | hx | hx | hx | hx | hx <;>
          simp [hx, isReportLine]
      · by_cases h2 : r < WET_THRESHOLD
        · simp [loopEvents, h1, h2, doubleBlinkEvents] at hx
          rcases hx with hx | hx | hx | hx | hx | hx | hx | hx | hx | hx | hx <;>
            simp [hx, isReportLine]
        · simp [loopEvents, h1, h2, singleBlinkEvents] at hx
          rcases hx with hx | hx | hx | hx | hx | hx <;> simp [hx, isReportLine]
    rw [← List.take_append_drop 6 (loopEvents r)] at hsplit
    rcases List.append_eq_append_iff.1 hsplit with ⟨a, _, ha2⟩ | ⟨c, hc1, _⟩
    · have hmem : e ∈ (loopEvents r).drop 6 := by
        rw [ha2]
        exact List.mem_append_right _ (List.mem_cons_self _ _)
      rw [hR e hmem] at he
      simp at he
    · rw [hc1] at hP
      simp only [outputEvents, List.filter_append, List.append_eq_nil] at hP
      exact hP.1

end SmartIrrigation
